import Mathlib

/-!
Verification of `src/analyze_xsd.py` from the PatoData repository.

The program is a small XSD analysis tool: `summarize_schema` renders a text
report of a loaded schema, `generate_example_xml` asks the external schema
library to synthesize an instance rooted at the first global element, and
`main` is a CLI driver that writes both artifacts to an output directory.

Shallow embedding conventions:
  * A parsed schema object (the object graph the external `xmlschema`
    library returns) is the structure `Schema`: an ordered association
    list of global elements, one of global types, and an optional
    `version` attribute. Python dict iteration order is insertion order,
    which the lists model directly.
  * Python exceptions are the inductive `PyErr`; fallible steps return
    `Except PyErr _`.
  * The filesystem and console effects of `main` are an explicit event
    trace (`Event`), and the process outcome is `RunResult`.
  * Loading a schema from a path (done by the external library) is
    modelled by the environment record `Env` carrying the load outcome
    for the given path; loading is deterministic, so both functions that
    load the same path observe the same outcome.
-/

namespace AnalyzeXsd

/-- An XML tree node: an element with a tag and children, or a text node. -/
inductive Xml where
  | elem (tag : String) (children : List Xml)
  | text (s : String)

/-- The tag of an XML node (text nodes have no tag). -/
def Xml.tag : Xml → String
  | .elem t _ => t
  | .text _ => ""

mutual

/-- Serialization of a node, modelling the serialization performed by
`lxml.etree` when the tree is written to disk. -/
def Xml.render : Xml → String
  | .text s => s
  | .elem t cs => "<" ++ t ++ ">" ++ Xml.renderList cs ++ "</" ++ t ++ ">"

/-- Serialization of a list of child nodes. -/
def Xml.renderList : List Xml → String
  | [] => ""
  | x :: xs => Xml.render x ++ Xml.renderList xs

end

/-- An `lxml.etree._ElementTree`: a document wrapper around a root node. -/
structure ElementTree where
  root : Xml

/-- Python exceptions that the embedded code can raise. -/
inductive PyErr where
  | valueError (msg : String)
  | keyError (key : String)
  | stopIteration
  | parseError (msg : String)
  | libError (msg : String)
deriving Repr, DecidableEq

/-- The result of Python `str(e)` on an exception, as used in the
warning message of `main`. -/
def PyErr.message : PyErr → String
  | .valueError m => m
  | .keyError k => k
  | .stopIteration => ""
  | .parseError m => m
  | .libError m => m

/-- A reference to a resolved XSD type, as exposed on an element
declaration: the library exposes a `name`, possibly `None`. -/
structure TypeRef where
  name : Option String
deriving Repr, DecidableEq

/-- A global type declaration as the summarizer reads it: the nested
`getattr` chain composes the base type and its name, so only the
resulting optional base-type name is relevant. -/
structure TypeDecl where
  baseName : Option String
deriving Repr, DecidableEq

/-- A global element declaration: its name, its optional resolved type
reference, and the outcome of the external library synthesizing the
content of an example instance for it (`to_etree`); the library either
produces the children of the instance or raises. -/
structure ElementDecl where
  name : String
  typeRef : Option TypeRef
  synthContent : Except String (List Xml)

/-- Modelled from the spec: the external schema library routine
`to_etree` (instance synthesis), which is not part of this repository.
Per the spec it produces a structurally valid element tree rooted at the
declaration, so on success the root tag is the declaration name;
synthesis failures from the library propagate as exceptions. -/
def ElementDecl.to_etree (e : ElementDecl) : Except PyErr Xml :=
  match e.synthContent with
  | .ok cs => .ok (Xml.elem e.name cs)
  | .error m => .error (.libError m)

/-- The parsed schema object graph returned by `xmlschema.XMLSchema11`:
the optional `version` attribute, the ordered mapping of global elements
and the ordered mapping of global types. -/
structure Schema where
  version : Option String
  elements : List (String × ElementDecl)
  types : List (String × TypeDecl)

/-- Python f-string rendering of an optional string: `None` prints as
the literal text `None`. -/
def pyOptStr : Option String → String
  | some s => s
  | none => "None"

/-- The text rendered for the type of a global element:
`elem.type.name if elem.type else anyType`. -/
def elemTypeRepr (e : ElementDecl) : String :=
  match e.typeRef with
  | some t => pyOptStr t.name
  | none => "anyType"

/-- The `lines` list built by `summarize_schema` before joining. -/
def summarize_lines (xsd_path : String) (s : Schema) : List String :=
  ["Schema: " ++ xsd_path,
   "Version: " ++ (match s.version with | some v => v | none => "n/a"),
   "",
   "Global elements:"]
  ++ s.elements.map (fun p => "- " ++ p.1 ++ " -> type=" ++ elemTypeRepr p.2)
  ++ ["", "Global types:"]
  ++ s.types.map (fun p => "- " ++ p.1 ++ " (base=" ++ pyOptStr p.2.baseName ++ ")")

/-- `summarize_schema`, applied to the already-loaded schema object; the
loading step `XMLSchema11(xsd_path)` is modelled by `Env.loadResult`. -/
def summarize_schema (xsd_path : String) (s : Schema) : String :=
  String.intercalate "\n" (summarize_lines xsd_path s)

/-- The message of the precondition error raised by
`generate_example_xml` on a schema with no global elements. -/
def noGlobalsMsg : String :=
  "No global elements found in schema; cannot generate example"

/-- `generate_example_xml`, applied to the already-loaded schema object.
The first component is the returned tree or the raised exception; the
second component records whether the instance-synthesis routine
(`to_etree`) of the library was invoked. The control flow mirrors the
source: the emptiness check, `next(iter(schema.elements))`, the mapping
lookup, then synthesis. -/
def generate_example_xml (s : Schema) : Except PyErr ElementTree × Bool :=
  if s.elements.isEmpty then
    (Except.error (PyErr.valueError noGlobalsMsg), false)
  else
    match s.elements.head? with
    | none => (Except.error PyErr.stopIteration, false)
    | some (root_qname, _) =>
      match s.elements.lookup root_qname with
      | none => (Except.error (PyErr.keyError root_qname), false)
      | some e => ((e.to_etree).map ElementTree.mk, true)

/-- The parsed CLI arguments: the required schema path and the output
directory (argparse supplies the default value `out`). -/
structure Args where
  xsd : String
  out : String
deriving Repr, DecidableEq

/-- The environment of a run: whether the schema path exists on disk,
and the outcome of the external library loading that path. -/
structure Env where
  xsdExists : Bool
  loadResult : Except PyErr Schema

/-- An observable effect of a `main` run. -/
inductive Event where
  | mkdir (dir : String)
  | printMsg (msg : String)
  | writeFile (path : String) (content : String)
  | callGenerate
deriving Repr, DecidableEq

/-- The outcome of a `main` run: the process exit code and the ordered
trace of its effects. -/
structure RunResult where
  exitCode : Nat
  events : List Event
deriving Repr, DecidableEq

/-- The document content written for `example.xml`: `lxml` writes an
XML declaration followed by the pretty-printed tree. -/
def renderDoc (t : Xml) : String :=
  "<?xml version=\x271.0\x27 encoding=\x27UTF-8\x27?>\n" ++ Xml.render t ++ "\n"

/-- The paths of the files written in an event trace. -/
def writesOf (evs : List Event) : List String :=
  evs.filterMap (fun e => match e with
    | .writeFile p _ => some p
    | _ => none)

/-- The CLI driver `main`, as an explicit trace over the environment.
The order of effects mirrors the source: the output directory is created
first, then the path existence check (a missing path raises `SystemExit`
with a diagnostic, exit code 1), then summarization (an uncaught load
error terminates with a nonzero exit), then the summary write, then
example generation inside try/except (a generation failure prints a
warning and the run still exits 0). -/
def main (args : Args) (env : Env) : RunResult :=
  let ev0 := [Event.mkdir args.out]
  if env.xsdExists = false then
    { exitCode := 1,
      events := ev0 ++ [Event.printMsg ("XSD not found: " ++ args.xsd)] }
  else
    let ev1 := ev0 ++ [Event.printMsg ("[bold]Analyzing[/bold] " ++ args.xsd)]
    match env.loadResult with
    | .error _ => { exitCode := 1, events := ev1 }
    | .ok schema =>
      let summary := summarize_schema args.xsd schema
      let ev2 := ev1 ++
        [Event.writeFile (args.out ++ "/schema_summary.txt") summary,
         Event.printMsg "- Wrote out/schema_summary.txt"]
      let ev3 := ev2 ++ [Event.callGenerate]
      match (generate_example_xml schema).1 with
      | .ok tree =>
        { exitCode := 0,
          events := ev3 ++
            [Event.writeFile (args.out ++ "/example.xml") (renderDoc tree.root),
             Event.printMsg "- Wrote out/example.xml"] }
      | .error e =>
        { exitCode := 0,
          events := ev3 ++
            [Event.printMsg ("[yellow]- Skipped example XML generation: " ++ e.message)] }

/-- Sample global element declaration: a `Root` element typed as a
simple string, for which the library synthesizes empty text content. -/
def rootDecl : ElementDecl where
  name := "Root"
  typeRef := some { name := some "xs:string" }
  synthContent := Except.ok [Xml.text ""]

/-- Sample schema mirroring the mini schema of the test suite: one
global element `Root` and one global type `CodeType`. -/
def sampleSchema : Schema where
  version := none
  elements := [("Root", rootDecl)]
  types := [("CodeType", { baseName := some "xs:string" })]

/-- Sample global element whose instance synthesis fails in the
library. -/
def brokenDecl : ElementDecl where
  name := "Root"
  typeRef := none
  synthContent := Except.error "cannot synthesize"

/-- Sample schema whose only global element cannot be synthesized. -/
def genFailSchema : Schema where
  version := none
  elements := [("Root", brokenDecl)]
  types := []

/-- Sample schema with no global elements and no global types. -/
def emptySchema : Schema where
  version := none
  elements := []
  types := []

/-- Sample CLI arguments with a non-default output directory. -/
def sampleArgs : Args where
  xsd := "mini.xsd"
  out := "custom"

/-- Sample CLI arguments naming a missing schema file. -/
def missingArgs : Args where
  xsd := "missing.xsd"
  out := "out"

/-- Environment where the schema path exists and loads to
`sampleSchema`. -/
def sampleEnv : Env where
  xsdExists := true
  loadResult := Except.ok sampleSchema

/-- Environment where the schema path does not exist. -/
def missingEnv : Env where
  xsdExists := false
  loadResult := Except.error (PyErr.parseError "file not found")

/-- Environment where the path exists but loading raises a schema parse
error. -/
def loadFailEnv : Env where
  xsdExists := true
  loadResult := Except.error (PyErr.parseError "schema parse error")

/-- Environment where the path exists, loading succeeds, and instance
synthesis fails. -/
def genFailEnv : Env where
  xsdExists := true
  loadResult := Except.ok genFailSchema

/-- C9: For every schema, including one with zero global elements or
zero global types, the summary contains both literal section headers
`Global elements:` and `Global types:` as lines of the report. -/
theorem summary_always_has_section_headers (xsd_path : String) (s : Schema) :
    summarize_schema xsd_path s =
      String.intercalate "\n" (summarize_lines xsd_path s) ∧
    "Global elements:" ∈ summarize_lines xsd_path s ∧
    "Global types:" ∈ summarize_lines xsd_path s := by
  refine ⟨rfl, ?_, ?_⟩ <;> simp [summarize_lines]

/-- C3: On a schema with zero global elements, `generate_example_xml`
raises a `ValueError` whose message states that no global elements were
found, and the instance-synthesis routine of the library is never
invoked. -/
theorem generate_example_xml_empty_is_precondition_error (s : Schema)
    (h : s.elements = []) :
    (generate_example_xml s).1 =
      Except.error (PyErr.valueError noGlobalsMsg) ∧
    (generate_example_xml s).2 = false ∧
    noGlobalsMsg = "No global elements found in schema; cannot generate example" := by
  refine ⟨?_, ?_, rfl⟩ <;> simp [generate_example_xml, h]

/-- Witness for C3 on the concrete schema with no global elements. -/
theorem generate_example_xml_empty_is_precondition_error_witness :
    (generate_example_xml emptySchema).1 =
      Except.error (PyErr.valueError noGlobalsMsg) ∧
    (generate_example_xml emptySchema).2 = false ∧
    noGlobalsMsg = "No global elements found in schema; cannot generate example" :=
  generate_example_xml_empty_is_precondition_error emptySchema rfl

/-- C8: The error branch for missing global elements is taken exactly
when the element mapping is empty; when it is non-empty, the first key
is retrieved, its mapping lookup succeeds (it cannot fail), and the
function proceeds to synthesis on that very declaration. -/
theorem generate_example_xml_nonempty_safe (s : Schema) :
    ((generate_example_xml s).1 =
        Except.error (PyErr.valueError noGlobalsMsg) ↔ s.elements = []) ∧
    (s.elements ≠ [] →
      ∃ q e rest, s.elements = (q, e) :: rest ∧
        s.elements.lookup q = some e ∧
        generate_example_xml s = ((e.to_etree).map ElementTree.mk, true)) := by
  cases hs : s.elements with
  | nil =>
    refine ⟨?_, fun h => absurd rfl h⟩
    simp [generate_example_xml, hs]
  | cons p rest =>
    obtain ⟨q, e⟩ := p
    have hgen : generate_example_xml s = ((e.to_etree).map ElementTree.mk, true) := by
      simp [generate_example_xml, hs, List.lookup]
    refine ⟨?_, fun _ => ⟨q, e, rest, rfl, by simp [List.lookup], hgen⟩⟩
    rw [hgen]
    simp only [List.cons_ne_nil, iff_false]
    cases hc : e.synthContent <;>
      simp [ElementDecl.to_etree, hc, Except.map]

/-- Witness for C8 on the concrete one-element schema. -/
theorem generate_example_xml_nonempty_safe_witness :
    sampleSchema.elements ≠ [] ∧
    ∃ q e rest, sampleSchema.elements = (q, e) :: rest ∧
      sampleSchema.elements.lookup q = some e ∧
      generate_example_xml sampleSchema = ((e.to_etree).map ElementTree.mk, true) :=
  ⟨by simp [sampleSchema],
   (generate_example_xml_nonempty_safe sampleSchema).2 (by simp [sampleSchema])⟩

/-- C1: The report of `summarize_schema` is the join of its lines, and
those lines contain the input path, the version line (the attribute
value or the sentinel `n/a`), the `Global elements:` header with one
line per global element in the stated format, and the `Global types:`
header with one line per global type in the stated format; in
particular every global element name and global type name appears. -/
theorem summarize_schema_report_complete (xsd_path : String) (s : Schema) :
    summarize_schema xsd_path s =
      String.intercalate "\n" (summarize_lines xsd_path s) ∧
    ("Schema: " ++ xsd_path) ∈ summarize_lines xsd_path s ∧
    ("Version: " ++ (match s.version with | some v => v | none => "n/a"))
      ∈ summarize_lines xsd_path s ∧
    "Global elements:" ∈ summarize_lines xsd_path s ∧
    (∀ p ∈ s.elements,
      ("- " ++ p.1 ++ " -> type=" ++ elemTypeRepr p.2)
        ∈ summarize_lines xsd_path s) ∧
    "Global types:" ∈ summarize_lines xsd_path s ∧
    (∀ p ∈ s.types,
      ("- " ++ p.1 ++ " (base=" ++ pyOptStr p.2.baseName ++ ")")
        ∈ summarize_lines xsd_path s) := by
  refine ⟨rfl, ?_, ?_, ?_, ?_, ?_, ?_⟩
  · simp [summarize_lines]
  · simp [summarize_lines]
  · simp [summarize_lines]
  · intro p hp
    simp only [summarize_lines, List.mem_append, List.mem_cons]
    exact Or.inl (Or.inl (Or.inr (List.mem_map_of_mem _ hp)))
  · simp [summarize_lines]
  · intro p hp
    simp only [summarize_lines, List.mem_append, List.mem_cons]
    exact Or.inr (List.mem_map_of_mem _ hp)

/-- Witness for C1 on the concrete mini schema: the `Root` element line
and the `CodeType` type line are present in the report lines. -/
theorem summarize_schema_report_complete_witness :
    ("- " ++ "Root" ++ " -> type=" ++ elemTypeRepr rootDecl)
      ∈ summarize_lines "mini.xsd" sampleSchema ∧
    ("- " ++ "CodeType" ++ " (base=" ++ pyOptStr (some "xs:string") ++ ")")
      ∈ summarize_lines "mini.xsd" sampleSchema :=
  ⟨(summarize_schema_report_complete "mini.xsd" sampleSchema).2.2.2.2.1
      ("Root", rootDecl) (by simp [sampleSchema]),
   (summarize_schema_report_complete "mini.xsd" sampleSchema).2.2.2.2.2.2
      ("CodeType", { baseName := some "xs:string" }) (by simp [sampleSchema])⟩

/-- C5: On a schema whose (ordered) global element mapping starts with
a declaration whose synthesis succeeds, `generate_example_xml` uses
that first declaration as the synthesis root and returns a tree whose
root tag equals that declaration's name. -/
theorem generate_example_xml_root_is_first_element (s : Schema)
    (q : String) (e : ElementDecl) (rest : List (String × ElementDecl))
    (cs : List Xml)
    (hs : s.elements = (q, e) :: rest) (hc : e.synthContent = Except.ok cs) :
    (generate_example_xml s).1 = Except.ok ⟨Xml.elem e.name cs⟩ ∧
    (Xml.elem e.name cs).tag = e.name := by
  refine ⟨?_, rfl⟩
  simp [generate_example_xml, hs, List.lookup, ElementDecl.to_etree, hc,
    Except.map]

/-- Witness for C5: for the schema whose only global element is `Root`
typed as a simple string, the returned root tag is `Root`. -/
theorem generate_example_xml_root_is_first_element_witness :
    (generate_example_xml sampleSchema).1 =
      Except.ok ⟨Xml.elem "Root" [Xml.text ""]⟩ ∧
    (Xml.elem "Root" [Xml.text ""]).tag = "Root" :=
  generate_example_xml_root_is_first_element sampleSchema "Root" rootDecl []
    [Xml.text ""] rfl rfl

/-- C2: When the schema path exists, a load or summarization failure
terminates the run with a nonzero exit before generation is ever
attempted, whereas a generation failure is caught: the warning is
printed and the run exits 0. -/
theorem main_error_propagation (args : Args) (env : Env)
    (hx : env.xsdExists = true) :
    (∀ er, env.loadResult = Except.error er →
      (main args env).exitCode ≠ 0 ∧
      Event.callGenerate ∉ (main args env).events) ∧
    (∀ s er, env.loadResult = Except.ok s →
      (generate_example_xml s).1 = Except.error er →
      (main args env).exitCode = 0 ∧
      Event.callGenerate ∈ (main args env).events ∧
      Event.printMsg ("[yellow]- Skipped example XML generation: " ++ er.message)
        ∈ (main args env).events) := by
  constructor
  · intro er her
    simp [main, hx, her]
  · intro s er hs hg
    simp [main, hx, hs, hg]

/-- Witness for C2: a run with a failing schema load exits nonzero
without attempting generation, and a run with a failing synthesis exits
0 with the warning printed. -/
theorem main_error_propagation_witness :
    ((main missingArgs loadFailEnv).exitCode ≠ 0 ∧
      Event.callGenerate ∉ (main missingArgs loadFailEnv).events) ∧
    ((main missingArgs genFailEnv).exitCode = 0 ∧
      Event.callGenerate ∈ (main missingArgs genFailEnv).events ∧
      Event.printMsg ("[yellow]- Skipped example XML generation: " ++
          (PyErr.libError "cannot synthesize").message)
        ∈ (main missingArgs genFailEnv).events) :=
  ⟨(main_error_propagation missingArgs loadFailEnv rfl).1
      (PyErr.parseError "schema parse error") rfl,
   (main_error_propagation missingArgs genFailEnv rfl).2
      genFailSchema (PyErr.libError "cannot synthesize") rfl
      (by simp [generate_example_xml, genFailSchema, List.lookup,
            ElementDecl.to_etree, brokenDecl, Except.map])⟩

/-- C4 counterexample: on a run whose schema path does not exist, the
exit is nonzero but the directory-creation side effect has already
happened — the `mkdir` of the output directory is in the trace, so it
is false that no filesystem side effect occurs on this failure path. -/
theorem main_missing_path_mkdir_counterexample :
    (main missingArgs missingEnv).exitCode ≠ 0 ∧
    Event.mkdir "out" ∈ (main missingArgs missingEnv).events := by
  constructor
  · simp [main, missingArgs, missingEnv]
  · simp [main, missingArgs, missingEnv]

/-- C4 (amended): when the schema path does not exist, the CLI exits
nonzero with a diagnostic and writes no files, but the output directory
is created before path validation, so that one side effect does occur:
the trace is exactly the `mkdir` followed by the diagnostic. -/
theorem main_missing_path_fails_fast (args : Args) (env : Env)
    (h : env.xsdExists = false) :
    (main args env).exitCode ≠ 0 ∧
    (main args env).events =
      [Event.mkdir args.out,
       Event.printMsg ("XSD not found: " ++ args.xsd)] ∧
    writesOf (main args env).events = [] := by
  refine ⟨?_, ?_, ?_⟩ <;> simp [main, h, writesOf]

/-- Witness for the amended C4 at the concrete missing-path run. -/
theorem main_missing_path_fails_fast_witness :
    (main missingArgs missingEnv).exitCode ≠ 0 ∧
    (main missingArgs missingEnv).events =
      [Event.mkdir missingArgs.out,
       Event.printMsg ("XSD not found: " ++ missingArgs.xsd)] ∧
    writesOf (main missingArgs missingEnv).events = [] :=
  main_missing_path_fails_fast missingArgs missingEnv rfl

/-- C6: a run against a non-existent schema path exits nonzero and
writes no file at all (in particular neither the summary nor the
example file). -/
theorem main_missing_path_writes_nothing (args : Args) (env : Env)
    (h : env.xsdExists = false) :
    (main args env).exitCode ≠ 0 ∧
    ∀ p c, Event.writeFile p c ∉ (main args env).events := by
  refine ⟨?_, ?_⟩ <;> simp [main, h]

/-- Witness for C6 at the concrete missing-path run. -/
theorem main_missing_path_writes_nothing_witness :
    (main missingArgs missingEnv).exitCode ≠ 0 ∧
    Event.writeFile ("out" ++ "/schema_summary.txt") ""
      ∉ (main missingArgs missingEnv).events ∧
    Event.writeFile ("out" ++ "/example.xml") ""
      ∉ (main missingArgs missingEnv).events :=
  ⟨(main_missing_path_writes_nothing missingArgs missingEnv rfl).1,
   (main_missing_path_writes_nothing missingArgs missingEnv rfl).2 _ _,
   (main_missing_path_writes_nothing missingArgs missingEnv rfl).2 _ _⟩

/-- C7: on a run that passes path validation and loads the schema, the
summary is always written to `<out>/schema_summary.txt`; the example
file is written to `<out>/example.xml` exactly when generation
succeeds, with the XML-declaration-prefixed serialized document as
content; and when generation fails the only file written in the whole
run is the summary. -/
theorem main_artifact_writes (args : Args) (env : Env) (s : Schema)
    (hx : env.xsdExists = true) (hl : env.loadResult = Except.ok s) :
    Event.writeFile (args.out ++ "/schema_summary.txt")
        (summarize_schema args.xsd s) ∈ (main args env).events ∧
    (∀ tr, (generate_example_xml s).1 = Except.ok tr →
      Event.writeFile (args.out ++ "/example.xml") (renderDoc tr.root)
          ∈ (main args env).events ∧
      ∃ body, renderDoc tr.root =
        "<?xml version=\x271.0\x27 encoding=\x27UTF-8\x27?>\n" ++ body) ∧
    (∀ er, (generate_example_xml s).1 = Except.error er →
      writesOf (main args env).events =
        [args.out ++ "/schema_summary.txt"]) := by
  refine ⟨?_, ?_, ?_⟩
  · cases hg : (generate_example_xml s).1 <;> simp [main, hx, hl, hg]
  · intro tr hg
    refine ⟨by simp [main, hx, hl, hg], Xml.render tr.root ++ "\n", rfl⟩
  · intro er hg
    simp [main, hx, hl, hg, writesOf]

/-- Witness for C7: with the sample schema generation succeeds and both
files are written; with the failing-synthesis schema only the summary
path appears among the writes. -/
theorem main_artifact_writes_witness :
    (Event.writeFile ("custom" ++ "/schema_summary.txt")
        (summarize_schema "mini.xsd" sampleSchema)
      ∈ (main sampleArgs sampleEnv).events ∧
     Event.writeFile ("custom" ++ "/example.xml")
        (renderDoc (Xml.elem "Root" [Xml.text ""]))
      ∈ (main sampleArgs sampleEnv).events) ∧
    writesOf (main missingArgs genFailEnv).events =
      ["out" ++ "/schema_summary.txt"] :=
  ⟨⟨(main_artifact_writes sampleArgs sampleEnv sampleSchema rfl rfl).1,
    ((main_artifact_writes sampleArgs sampleEnv sampleSchema rfl rfl).2.1
      ⟨Xml.elem "Root" [Xml.text ""]⟩
      (by simp [generate_example_xml, sampleSchema, List.lookup,
            ElementDecl.to_etree, rootDecl, Except.map])).1⟩,
   (main_artifact_writes missingArgs genFailEnv genFailSchema rfl rfl).2.2
      (PyErr.libError "cannot synthesize")
      (by simp [generate_example_xml, genFailSchema, List.lookup,
            ElementDecl.to_etree, brokenDecl, Except.map])⟩

/-- C10: on a fully successful run the progress messages name the
literal directory `out` in both `Wrote` lines, for every value of the
output-directory argument, while the files themselves are written under
the user-supplied output directory. -/
theorem main_progress_messages_name_literal_out (args : Args) (env : Env)
    (s : Schema) (tr : ElementTree)
    (hx : env.xsdExists = true) (hl : env.loadResult = Except.ok s)
    (hg : (generate_example_xml s).1 = Except.ok tr) :
    Event.printMsg "- Wrote out/schema_summary.txt" ∈ (main args env).events ∧
    Event.printMsg "- Wrote out/example.xml" ∈ (main args env).events ∧
    Event.writeFile (args.out ++ "/schema_summary.txt")
        (summarize_schema args.xsd s) ∈ (main args env).events ∧
    Event.writeFile (args.out ++ "/example.xml") (renderDoc tr.root)
        ∈ (main args env).events := by
  refine ⟨?_, ?_, ?_, ?_⟩ <;> simp [main, hx, hl, hg]

/-- Witness for C10: with output directory `custom`, the progress
messages still say `out/...` while the write paths start with
`custom/`. -/
theorem main_progress_messages_name_literal_out_witness :
    Event.printMsg "- Wrote out/schema_summary.txt"
      ∈ (main sampleArgs sampleEnv).events ∧
    Event.printMsg "- Wrote out/example.xml"
      ∈ (main sampleArgs sampleEnv).events ∧
    Event.writeFile ("custom" ++ "/schema_summary.txt")
        (summarize_schema "mini.xsd" sampleSchema)
      ∈ (main sampleArgs sampleEnv).events ∧
    Event.writeFile ("custom" ++ "/example.xml")
        (renderDoc (Xml.elem "Root" [Xml.text ""]))
      ∈ (main sampleArgs sampleEnv).events :=
  main_progress_messages_name_literal_out sampleArgs sampleEnv sampleSchema
    ⟨Xml.elem "Root" [Xml.text ""]⟩ rfl rfl
    (by simp [generate_example_xml, sampleSchema, List.lookup,
          ElementDecl.to_etree, rootDecl, Except.map])

end AnalyzeXsd
